import Mathlib

/-!
# Verification of the Kafka relay plugin

Shallow embedding of `src/config.ts` and `src/service/kafkaRelayPlugin.ts`
(the `KafkaRelayPlugin` class): the configuration value, the TLS (`ssl`)
option derived in the constructor, and the `init()` / `relay()` operations.

External collaborators (the APM tracer, the logger service, and the kafkajs
producer) are modelled by a `Behavior` record giving the outcome of each call
site: `Except.ok` for a normal return and `Except.error m` for a thrown
exception whose `.message` is `m`.  `relay()` and `init()` are translated
statement by statement, with JavaScript `try`/`catch`/`finally` semantics made
explicit (the `finally` block runs on every path, and an exception thrown from
`catch` or `finally` escapes to the caller).  Each run produces a trace of
observable events (collaborator invocations) plus the exception, if any, that
escapes to the caller.
-/

namespace KafkaRelay

/-- Mirrors the runtime configuration object consumed by `KafkaRelayPlugin`
(interface `ExtendedConfig` in `src/config.ts`).  Fields the code guards with
`??` or JavaScript truthiness are `Option String` (`none` = `undefined`). -/
structure Configuration where
  DESTINATION_TRANSPORT_URL : Option String
  PRODUCER_STREAM : String
  KAFKA_TLS_CA : Option String
  CLIENT_ID : Option String
  NODE_ENV : Option String
deriving DecidableEq

/-- The `ssl` option passed to the `Kafka` constructor: `false`, or an object
`\x7b rejectUnauthorized, ca \x7d`. -/
inductive SslOption where
  | disabled
  | enabled (rejectUnauthorized : Bool) (ca : List String)
deriving DecidableEq

/-- The value of `this.configuration.NODE_ENV ?? process.env.NODE_ENV ?? 'dev'`
in the constructor (`??` is JavaScript nullish coalescing, so an empty string
is kept). -/
def resolvedNodeEnv (cfg : Configuration) (procNodeEnv : Option String) : String :=
  (cfg.NODE_ENV <|> procNodeEnv).getD "dev"

/-- The CA list `this.configuration.KAFKA_TLS_CA ? [this.configuration.KAFKA_TLS_CA] : []`
(JavaScript truthiness: `undefined` and the empty string are falsy). -/
def caList (cfg : Configuration) : List String :=
  match cfg.KAFKA_TLS_CA with
  | some s => if s ≠ "" then [s] else []
  | none => []

/-- The `ssl` value computed in the constructor: `false` when
`isDev`, otherwise `\x7b rejectUnauthorized: false, ca: ... \x7d`. -/
def deriveSsl (cfg : Configuration) (procNodeEnv : Option String) : SslOption :=
  if resolvedNodeEnv cfg procNodeEnv = "dev" then SslOption.disabled
  else SslOption.enabled false (caList cfg)

/-- The options object passed to `new Kafka(...)` in the constructor. -/
structure KafkaConfig where
  clientId : String
  brokers : List String
  ssl : SslOption
deriving DecidableEq

/-- Mirrors the `new Kafka(\x7b clientId, brokers, ssl, logLevel \x7d)` call
(the constant `logLevel: logLevel.ERROR` is omitted as it carries no state). -/
def mkKafkaConfig (cfg : Configuration) (procNodeEnv : Option String) : KafkaConfig :=
  ⟨cfg.CLIENT_ID.getD "relay-plugin",
    [cfg.DESTINATION_TRANSPORT_URL.getD "localhost:9092"],
    deriveSsl cfg procNodeEnv⟩

/-- The argument of `relay(data: Uint8Array | string)`.  In Node a `Buffer` is
a subclass of `Uint8Array`; `Buffer.isBuffer` distinguishes the two, so the
model keeps them as separate constructors. -/
inductive Payload where
  | str (s : String)
  | buf (bytes : List Nat)
  | u8 (bytes : List Nat)
deriving DecidableEq

/-- Models `Buffer.prototype.toString()` (UTF-8 decoding), restricted to ASCII
byte sequences, on which each byte below 128 decodes to the corresponding
character; all claims are evaluated on ASCII inputs. -/
def bufToString (bytes : List Nat) : String :=
  String.mk (bytes.map fun b => Char.ofNat b)

/-- Models `JSON.stringify` applied to a plain `Uint8Array`: the array is
serialized as an object keyed by indices, e.g. `\x7b"0":104,"1":105\x7d`. -/
def jsonStringifyU8 (bytes : List Nat) : String :=
  "\x7b" ++
    String.intercalate ","
      (bytes.enum.map fun p => "\"" ++ toString p.1 ++ "\":" ++ toString p.2) ++
    "\x7d"

/-- The payload normalization expression in `relay`:
`Buffer.isBuffer(data) ? data.toString() : typeof data === 'string' ? data : JSON.stringify(data)`. -/
def normalize : Payload → String
  | Payload.str s => s
  | Payload.buf bytes => bufToString bytes
  | Payload.u8 bytes => jsonStringifyU8 bytes

/-- `KafkaRelayPlugin.name`, the component string passed to the logger and to
`apm.startTransaction`. -/
def componentName : String := "KafkaRelayPlugin"

/-- Observable collaborator invocations made by `init()` and `relay()`.
A `startTransaction` / `startSpan` event is recorded when the tracer call
returns a (non-null) handle; `txEnd` / `spanEnd` when `.end()` is invoked on
that handle; `send` when `producer.send` is invoked, with the topic and the
`value` of each message; `connect` when `producer.connect()` is invoked. -/
inductive Event where
  | logInfo (msg : String) (component : String)
  | logError (msg : String) (component : String)
  | startTransaction (name : String)
  | startSpan (name : String)
  | txEnd
  | spanEnd
  | send (topic : String) (values : List String)
  | connect
deriving DecidableEq

/-- Outcome of each collaborator call site inside `relay()`.  `Except.error m`
means the call throws an `Error` whose `.message` is `m`; for the two tracer
start calls, `Except.ok none` means the call returns `null` (APM inactive). -/
structure Behavior where
  startTransaction : Except String (Option Unit)
  startSpan : Except String (Option Unit)
  logInfo : Except String Unit
  send : Except String Unit
  spanEnd : Except String Unit
  logError : Except String Unit
  txEnd : Except String Unit

/-- Result of one `relay()` call: the trace of collaborator events, and
`some m` when an exception with message `m` escapes to the caller
(`none` = the promise resolves normally). -/
structure RelayResult where
  events : List Event
  thrown : Option String
deriving DecidableEq

/-- The `finally` block: `apmTransaction?.end()`.  Runs on every path;
`txStarted` records whether `apmTransaction` holds a handle.  An exception
thrown by `end()` supersedes any pending outcome. -/
def runFinally (b : Behavior) (txStarted : Bool) (evs : List Event)
    (pending : Option String) : RelayResult :=
  if txStarted then
    match b.txEnd with
    | Except.error m => ⟨evs ++ [Event.txEnd], some m⟩
    | Except.ok _ => ⟨evs ++ [Event.txEnd], pending⟩
  else ⟨evs, pending⟩

/-- The `catch` block: `loggerService?.error(...)` with the caught message,
then the `finally` block.  If the logger call itself throws, that exception is
pending when `finally` runs. -/
def runCatch (b : Behavior) (txStarted : Bool) (evs : List Event)
    (m : String) : RelayResult :=
  let evs2 := evs ++ [Event.logError ("Kafka relay error: " ++ m) componentName]
  match b.logError with
  | Except.error m2 => runFinally b txStarted evs2 (some m2)
  | Except.ok _ => runFinally b txStarted evs2 none

/-- The tail of the `try` block after the `send` expression: `span?.end()`
(skipped when `startSpan` returned `null`), whose exception is caught by the
`catch` block, then the `finally` block. -/
def relayAfterSend (b : Behavior) (txStarted spanStarted : Bool)
    (evs : List Event) : RelayResult :=
  if spanStarted then
    match b.spanEnd with
    | Except.error m => runCatch b txStarted (evs ++ [Event.spanEnd]) m
    | Except.ok _ => runFinally b txStarted (evs ++ [Event.spanEnd]) none
  else runFinally b txStarted evs none

/-- Statement-by-statement translation of `KafkaRelayPlugin.relay(data)`.
`producer` is `this.producer` (`none` before a successful `init()` assigns
it); `producer?.send(...)` is skipped entirely when it is `none`. -/
def relayModel (cfg : Configuration) (b : Behavior) (producer : Option Nat)
    (data : Payload) : RelayResult :=
  match b.startTransaction with
  | Except.error m => runCatch b false [] m
  | Except.ok txOpt =>
    let txStarted := txOpt.isSome
    let evs0 : List Event :=
      if txStarted then [Event.startTransaction componentName] else []
    match b.startSpan with
    | Except.error m => runCatch b txStarted evs0 m
    | Except.ok spanOpt =>
      let spanStarted := spanOpt.isSome
      let evs1 := evs0 ++ (if spanStarted then [Event.startSpan "relay"] else [])
      let evs2 := evs1 ++
        [Event.logInfo ("Sending data to Kafka topic: " ++ cfg.PRODUCER_STREAM)
          componentName]
      match b.logInfo with
      | Except.error m => runCatch b txStarted evs2 m
      | Except.ok _ =>
        match producer with
        | none => relayAfterSend b txStarted spanStarted evs2
        | some _ =>
          let evs3 := evs2 ++ [Event.send cfg.PRODUCER_STREAM [normalize data]]
          match b.send with
          | Except.error m => runCatch b txStarted evs3 m
          | Except.ok _ => relayAfterSend b txStarted spanStarted evs3

/-- Outcome of each collaborator call site inside `init()`. -/
structure InitBehavior where
  logBefore : Except String Unit
  connect : Except String Unit
  logAfter : Except String Unit

/-- Result of one `init()` call: event trace, the `this.producer` field after
the call, and the exception escaping to the caller, if any. -/
structure InitResult where
  events : List Event
  producer : Option Nat
  thrown : Option String
deriving DecidableEq

/-- Template interpolation of a possibly-undefined string
(JavaScript renders `undefined` as the text "undefined"). -/
def interpOpt : Option String → String
  | some s => s
  | none => "undefined"

/-- Statement-by-statement translation of `KafkaRelayPlugin.init()`:
log, `this.producer = this.kafka.producer()` (a fresh handle, modelled by
`freshId`, unconditionally replacing `old`), `await this.producer.connect()`,
confirmation log.  There is no `try`/`catch`: any exception propagates. -/
def initModel (cfg : Configuration) (b : InitBehavior) (freshId : Nat)
    (old : Option Nat) : InitResult :=
  let ev0 := [Event.logInfo
    ("Initializing Kafka producer for broker: " ++
      interpOpt cfg.DESTINATION_TRANSPORT_URL) componentName]
  match b.logBefore with
  | Except.error m => ⟨ev0, old, some m⟩
  | Except.ok _ =>
    let ev1 := ev0 ++ [Event.connect]
    match b.connect with
    | Except.error m => ⟨ev1, some freshId, some m⟩
    | Except.ok _ =>
      let ev2 := ev1 ++ [Event.logInfo "Kafka producer connected" componentName]
      match b.logAfter with
      | Except.error m => ⟨ev2, some freshId, some m⟩
      | Except.ok _ => ⟨ev2, some freshId, none⟩

/-- The publish requests in a trace: topic and message values of each
`producer.send` invocation. -/
def sendRequests (evs : List Event) : List (String × List String) :=
  evs.filterMap fun e =>
    match e with
    | Event.send t vs => some (t, vs)
    | _ => none

/-- Event-class predicates used for counting. -/
def isTxStart : Event → Bool
  | Event.startTransaction _ => true
  | _ => false

def isTxEnd : Event → Bool
  | Event.txEnd => true
  | _ => false

def isSpanStart : Event → Bool
  | Event.startSpan _ => true
  | _ => false

def isSpanEnd : Event → Bool
  | Event.spanEnd => true
  | _ => false

def isLogError : Event → Bool
  | Event.logError _ _ => true
  | _ => false

def isConnect : Event → Bool
  | Event.connect => true
  | _ => false

/-- Number of events of a given class in a trace. -/
def countEv (p : Event → Bool) (evs : List Event) : Nat :=
  (evs.filter p).length

/-- A concrete configuration used by witnesses: tier `prod`, stream
`topic-a`. -/
def cfgA : Configuration :=
  ⟨some "localhost:9092", "topic-a", some "FAKE_CA", some "test-client", some "prod"⟩

/-- A behavior in which every collaborator call succeeds and both tracer
handles are non-null. -/
def okB : Behavior :=
  ⟨Except.ok (some ()), Except.ok (some ()), Except.ok (), Except.ok (),
    Except.ok (), Except.ok (), Except.ok ()⟩

/-- A behavior in which `producer.send` rejects with `Error("boom")` and every
other collaborator call succeeds. -/
def sendThrowsB : Behavior :=
  ⟨Except.ok (some ()), Except.ok (some ()), Except.ok (), Except.error "boom",
    Except.ok (), Except.ok (), Except.ok ()⟩

/-- A behavior in which the transaction handle's `end()` throws
`Error("teardown")` and every other collaborator call succeeds. -/
def txEndThrowsB : Behavior :=
  ⟨Except.ok (some ()), Except.ok (some ()), Except.ok (), Except.ok (),
    Except.ok (), Except.ok (), Except.error "teardown"⟩

/-- An `init()` behavior in which `connect()` rejects. -/
def connectThrowsIB : InitBehavior :=
  ⟨Except.ok (), Except.error "ECONNREFUSED", Except.ok ()⟩

/-- An `init()` behavior in which every call succeeds. -/
def okIB : InitBehavior :=
  ⟨Except.ok (), Except.ok (), Except.ok ()⟩

/-- A configuration with tier `prod` and no CA material. -/
def cfgProdNoCA : Configuration :=
  ⟨some "localhost:9092", "topic-a", none, none, some "prod"⟩

/-- A configuration with `NODE_ENV` unset (and CA material present). -/
def cfgDevUnset : Configuration :=
  ⟨some "localhost:9092", "topic-a", some "FAKE_CA", none, none⟩

/-- A configuration whose `NODE_ENV` is the full word `development`. -/
def cfgDevelopment : Configuration :=
  ⟨some "localhost:9092", "topic-a", some "FAKE_CA", none, some "development"⟩

/-- A configuration whose `NODE_ENV` is the upper-case string `DEV`. -/
def cfgDEV : Configuration :=
  ⟨some "localhost:9092", "topic-a", some "FAKE_CA", none, some "DEV"⟩

/-! ## Helper lemmas

Exact characterizations of the event trace and the escaping exception of the
`try`/`catch`/`finally` building blocks of `relay()`. -/

theorem runFinally_events (b : Behavior) (ts : Bool) (evs : List Event)
    (p : Option String) :
    (runFinally b ts evs p).events = evs ++ (if ts then [Event.txEnd] else []) := by
  cases h : b.txEnd <;> cases ts <;> simp [runFinally, h]

theorem runCatch_events (b : Behavior) (ts : Bool) (evs : List Event) (m : String) :
    (runCatch b ts evs m).events =
      (evs ++ [Event.logError ("Kafka relay error: " ++ m) componentName]) ++
        (if ts then [Event.txEnd] else []) := by
  cases h : b.logError <;> simp [runCatch, h, runFinally_events]

theorem relayAfterSend_events (b : Behavior) (ts ss : Bool) (evs : List Event) :
    (relayAfterSend b ts ss evs).events =
      (evs ++ (if ss then Event.spanEnd ::
        (match b.spanEnd with
         | Except.error m =>
            [Event.logError ("Kafka relay error: " ++ m) componentName]
         | Except.ok _ => []) else [])) ++
        (if ts then [Event.txEnd] else []) := by
  cases ss <;> cases h : b.spanEnd <;>
    simp [relayAfterSend, h, runFinally_events, runCatch_events]

theorem runFinally_thrown_none (b : Behavior) (ts : Bool) (evs : List Event)
    (hte : b.txEnd = Except.ok ()) :
    (runFinally b ts evs none).thrown = none := by
  cases ts <;> simp [runFinally, hte]

theorem runCatch_thrown_none (b : Behavior) (ts : Bool) (evs : List Event)
    (m : String) (hle : b.logError = Except.ok ())
    (hte : b.txEnd = Except.ok ()) :
    (runCatch b ts evs m).thrown = none := by
  simp [runCatch, hle, runFinally_thrown_none _ _ _ hte]

theorem relayAfterSend_thrown_none (b : Behavior) (ts ss : Bool)
    (evs : List Event) (hle : b.logError = Except.ok ())
    (hte : b.txEnd = Except.ok ()) :
    (relayAfterSend b ts ss evs).thrown = none := by
  cases ss <;> cases h : b.spanEnd <;>
    simp [relayAfterSend, h, runFinally_thrown_none _ _ _ hte,
      runCatch_thrown_none _ _ _ _ hle hte]

theorem countEv_append (p : Event → Bool) (a c : List Event) :
    countEv p (a ++ c) = countEv p a + countEv p c := by
  simp [countEv, List.filter_append]

/-- Whatever the collaborators do, `relay()` never throws to its caller as
long as the `catch` block's error log and the `finally` block's
`apmTransaction?.end()` do not themselves throw. -/
theorem relay_no_throw (cfg : Configuration) (b : Behavior)
    (producer : Option Nat) (data : Payload)
    (hle : b.logError = Except.ok ()) (hte : b.txEnd = Except.ok ()) :
    (relayModel cfg b producer data).thrown = none := by
  rcases hbt : b.startTransaction with m | topt
  · simp [relayModel, hbt, runCatch_thrown_none _ _ _ _ hle hte]
  · rcases hbs : b.startSpan with m | sopt
    · simp [relayModel, hbt, hbs, runCatch_thrown_none _ _ _ _ hle hte]
    · rcases hbl : b.logInfo with m | u
      · simp [relayModel, hbt, hbs, hbl, runCatch_thrown_none _ _ _ _ hle hte]
      · cases producer with
        | none =>
            simp [relayModel, hbt, hbs, hbl,
              relayAfterSend_thrown_none _ _ _ _ hle hte]
        | some p =>
            rcases hsd : b.send with m | u2
            · simp [relayModel, hbt, hbs, hbl, hsd,
                runCatch_thrown_none _ _ _ _ hle hte]
            · simp [relayModel, hbt, hbs, hbl, hsd,
                relayAfterSend_thrown_none _ _ _ _ hle hte]

/-- In every `relay()` run the number of started transactions equals the
number of `end()` calls on the transaction handle. -/
theorem relay_tx_paired (cfg : Configuration) (b : Behavior)
    (producer : Option Nat) (data : Payload) :
    countEv isTxStart (relayModel cfg b producer data).events =
      countEv isTxEnd (relayModel cfg b producer data).events := by
  rcases hbt : b.startTransaction with m | topt
  · simp [relayModel, hbt, runCatch_events, countEv_append, countEv,
      isTxStart, isTxEnd]
  · rcases hbs : b.startSpan with m | sopt
    · cases topt <;>
        simp [relayModel, hbt, hbs, runCatch_events, countEv_append, countEv,
          isTxStart, isTxEnd]
    · rcases hbl : b.logInfo with m | u
      · cases topt <;> cases sopt <;>
          simp [relayModel, hbt, hbs, hbl, runCatch_events, countEv_append,
            countEv, isTxStart, isTxEnd]
      · cases producer with
        | none =>
            cases topt <;> cases sopt <;> rcases hse : b.spanEnd with m2 | u2 <;>
              simp [relayModel, hbt, hbs, hbl, relayAfterSend_events, hse,
                countEv_append, countEv, isTxStart, isTxEnd]
        | some p =>
            rcases hsd : b.send with m | u3
            · cases topt <;> cases sopt <;>
                simp [relayModel, hbt, hbs, hbl, hsd, runCatch_events,
                  countEv_append, countEv, isTxStart, isTxEnd]
            · cases topt <;> cases sopt <;> rcases hse : b.spanEnd with m2 | u2 <;>
                simp [relayModel, hbt, hbs, hbl, hsd, relayAfterSend_events,
                  hse, countEv_append, countEv, isTxStart, isTxEnd]

/-- A string extended by the broker-address interpolation is never the
connection confirmation message. -/
theorem initLog_ne_connectedLog (x : String) :
    "Initializing Kafka producer for broker: " ++ x ≠ "Kafka producer connected" := by
  intro h
  have hlen := congrArg String.length h
  rw [String.length_append] at hlen
  have h1 : ("Initializing Kafka producer for broker: ").length = 40 := rfl
  have h2 : ("Kafka producer connected").length = 24 := rfl
  rw [h1, h2] at hlen
  omega

/-! ## Claims -/

/-- Claim C1, counterexample: the claim quantifies over every behavior of the
injected collaborators, but a tracer whose transaction handle's `end()` throws
makes the `finally` block of `relay()` rethrow: with behavior `txEndThrowsB`,
`relay("hello")` escapes to its caller with the message `teardown`. -/
theorem c1_relay_never_throws_counterexample :
    (relayModel cfgA txEndThrowsB (some 0) (Payload.str "hello")).thrown =
      some "teardown" := rfl

/-- Claim C1 (amended): provided the logger's `error` method and the
transaction handle's `end()` do not themselves throw, `relay(payload)` never
raises to its caller, for every payload, producer state, and behavior of the
remaining collaborator calls (transaction start, span start, logging, publish,
span end); and when the publish step rejects with message `m`, an error log
containing `m` is emitted. -/
theorem c1_relay_caught_errors_amended (cfg : Configuration) (b : Behavior)
    (producer : Option Nat) (data : Payload)
    (hle : b.logError = Except.ok ()) (hte : b.txEnd = Except.ok ()) :
    (relayModel cfg b producer data).thrown = none ∧
    (∀ t s m p, b.startTransaction = Except.ok t → b.startSpan = Except.ok s →
      b.logInfo = Except.ok () → producer = some p → b.send = Except.error m →
      Event.logError ("Kafka relay error: " ++ m) componentName ∈
        (relayModel cfg b producer data).events) := by
  refine ⟨relay_no_throw cfg b producer data hle hte, ?_⟩
  intro t s m p hbt hbs hbl hp hsd
  subst hp
  cases t <;> cases s <;>
    simp [relayModel, hbt, hbs, hbl, hsd, runCatch_events]

/-- Claim C1 witness: with the spec's own scenario (publish rejects with
`Error("boom")`), no exception escapes `relay()` and an error log containing
`boom` is emitted. -/
theorem c1_relay_caught_errors_witness :
    (relayModel cfgA sendThrowsB (some 0) (Payload.str "hello")).thrown = none ∧
    Event.logError ("Kafka relay error: " ++ "boom") componentName ∈
      (relayModel cfgA sendThrowsB (some 0) (Payload.str "hello")).events := by
  have h := c1_relay_caught_errors_amended cfgA sendThrowsB (some 0)
    (Payload.str "hello") rfl rfl
  exact ⟨h.1, h.2 (some ()) (some ()) "boom" 0 rfl rfl rfl rfl rfl⟩

/-- Claim C2, counterexample: when the publish step rejects, the span started
by `apm.startSpan('relay')` is never ended — `span?.end()` sits on the success
path of the `try` block, not in `finally` — so a started span dangles on the
error path: one span start, zero span ends. -/
theorem c2_span_paired_counterexample :
    countEv isSpanStart
      (relayModel cfgA sendThrowsB (some 0) (Payload.str "x")).events = 1 ∧
    countEv isSpanEnd
      (relayModel cfgA sendThrowsB (some 0) (Payload.str "x")).events = 0 :=
  ⟨rfl, rfl⟩

/-- Claim C2 (amended): every started transaction is ended exactly once,
including on the error path; the started span is ended exactly once when the
steps through the publish succeed, but when the publish step throws after the
span was started, the span is not ended (it is left dangling). -/
theorem c2_tracing_pairs_amended (cfg : Configuration) (b : Behavior)
    (producer : Option Nat) (data : Payload) :
    countEv isTxStart (relayModel cfg b producer data).events =
      countEv isTxEnd (relayModel cfg b producer data).events ∧
    (∀ t s, b.startTransaction = Except.ok t → b.startSpan = Except.ok s →
      b.logInfo = Except.ok () → b.send = Except.ok () →
      countEv isSpanStart (relayModel cfg b producer data).events =
        countEv isSpanEnd (relayModel cfg b producer data).events) ∧
    (∀ t u m p, b.startTransaction = Except.ok t →
      b.startSpan = Except.ok (some u) → b.logInfo = Except.ok () →
      producer = some p → b.send = Except.error m →
      countEv isSpanStart (relayModel cfg b producer data).events = 1 ∧
      countEv isSpanEnd (relayModel cfg b producer data).events = 0) := by
  refine ⟨relay_tx_paired cfg b producer data, ?_, ?_⟩
  · intro t s hbt hbs hbl hsd
    cases producer with
    | none =>
        cases t <;> cases s <;> rcases hse : b.spanEnd with m2 | u2 <;>
          simp [relayModel, hbt, hbs, hbl, relayAfterSend_events, hse,
            countEv_append, countEv, isSpanStart, isSpanEnd]
    | some p =>
        cases t <;> cases s <;> rcases hse : b.spanEnd with m2 | u2 <;>
          simp [relayModel, hbt, hbs, hbl, hsd, relayAfterSend_events, hse,
            countEv_append, countEv, isSpanStart, isSpanEnd]
  · intro t u m p hbt hbs hbl hp hsd
    subst hp
    cases t <;>
      simp [relayModel, hbt, hbs, hbl, hsd, runCatch_events, countEv_append,
        countEv, isSpanStart, isSpanEnd]

/-- Claim C2 witness: in a run where the publish rejects, the transaction is
started and ended exactly once while the span is started once and never
ended. -/
theorem c2_tracing_pairs_witness :
    countEv isTxStart
      (relayModel cfgA sendThrowsB (some 1) (Payload.str "y")).events =
      countEv isTxEnd
        (relayModel cfgA sendThrowsB (some 1) (Payload.str "y")).events ∧
    countEv isSpanStart
      (relayModel cfgA sendThrowsB (some 1) (Payload.str "y")).events = 1 ∧
    countEv isSpanEnd
      (relayModel cfgA sendThrowsB (some 1) (Payload.str "y")).events = 0 := by
  have h := c2_tracing_pairs_amended cfgA sendThrowsB (some 1) (Payload.str "y")
  exact ⟨h.1, h.2.2 (some ()) () "boom" 1 rfl rfl rfl rfl rfl⟩

/-- Claim C3: for every configuration whose environment tier resolves to
development (`NODE_ENV` equal to `dev`, or unset and defaulting to `dev`), the
`ssl` option passed to the Kafka client is `false`, regardless of CA
material. -/
theorem c3_dev_tls_disabled (cfg : Configuration) (procNodeEnv : Option String)
    (h : resolvedNodeEnv cfg procNodeEnv = "dev") :
    (mkKafkaConfig cfg procNodeEnv).ssl = SslOption.disabled := by
  simp [mkKafkaConfig, deriveSsl, h]

/-- Claim C3 witness: with `NODE_ENV` unset in both the configuration and the
process environment, the tier defaults to development and `ssl` is disabled
even though CA material is present. -/
theorem c3_dev_tls_disabled_witness :
    resolvedNodeEnv cfgDevUnset none = "dev" ∧
    (mkKafkaConfig cfgDevUnset none).ssl = SslOption.disabled :=
  ⟨rfl, c3_dev_tls_disabled cfgDevUnset none rfl⟩

/-- Claim C4: for every configuration whose tier is not development, the `ssl`
option has `rejectUnauthorized: false` and a CA list equal to `[CA]` when the
CA material is present and non-empty, or `[]` when it is absent; the list is
total (never undefined) by construction. -/
theorem c4_nondev_tls_policy (cfg : Configuration) (procNodeEnv : Option String)
    (h : resolvedNodeEnv cfg procNodeEnv ≠ "dev") :
    (∀ ca, cfg.KAFKA_TLS_CA = some ca → ca ≠ "" →
      (mkKafkaConfig cfg procNodeEnv).ssl = SslOption.enabled false [ca]) ∧
    (cfg.KAFKA_TLS_CA = none →
      (mkKafkaConfig cfg procNodeEnv).ssl = SslOption.enabled false []) := by
  constructor
  · intro ca hca hne
    simp [mkKafkaConfig, deriveSsl, h, caList, hca, hne]
  · intro hca
    simp [mkKafkaConfig, deriveSsl, h, caList, hca]

/-- Claim C4 witness: the spec's two scenarios — tier `prod` with CA unset
gives `ssl = \x7b rejectUnauthorized: false, ca: [] \x7d`, and tier `prod`
with CA `FAKE_CA` gives `ca: ["FAKE_CA"]`. -/
theorem c4_nondev_tls_policy_witness :
    (mkKafkaConfig cfgProdNoCA none).ssl = SslOption.enabled false [] ∧
    (mkKafkaConfig cfgA none).ssl = SslOption.enabled false ["FAKE_CA"] :=
  ⟨(c4_nondev_tls_policy cfgProdNoCA none (by decide)).2 rfl,
    (c4_nondev_tls_policy cfgA none (by decide)).1 "FAKE_CA" rfl (by decide)⟩

/-- Claim C5: for every string payload, when the instance holds a producer and
the steps before the publish do not throw, `relay(text)` submits exactly one
publish request, with topic `PRODUCER_STREAM` and the one-element message list
carrying `text` unchanged — regardless of whether the publish itself or the
span end subsequently fail. -/
theorem c5_relay_text_publish (cfg : Configuration) (b : Behavior) (p : Nat)
    (text : String) (t s : Option Unit)
    (hbt : b.startTransaction = Except.ok t) (hbs : b.startSpan = Except.ok s)
    (hbl : b.logInfo = Except.ok ()) :
    sendRequests (relayModel cfg b (some p) (Payload.str text)).events =
      [(cfg.PRODUCER_STREAM, [text])] := by
  rcases hsd : b.send with m | u <;> cases t <;> cases s <;>
    rcases hse : b.spanEnd with m2 | u2 <;>
    simp [relayModel, hbt, hbs, hbl, hsd, hse, relayAfterSend_events,
      runCatch_events, runFinally_events, sendRequests, normalize,
      List.filterMap_append]

/-- Claim C5 witness: `relay("hello")` with stream `topic-a` publishes
exactly `[(topic-a, ["hello"])]`. -/
theorem c5_relay_text_publish_witness :
    sendRequests (relayModel cfgA okB (some 0) (Payload.str "hello")).events =
      [("topic-a", ["hello"])] :=
  c5_relay_text_publish cfgA okB 0 "hello" (some ()) (some ()) rfl rfl rfl

/-- Claim C6, counterexample: `Buffer.isBuffer` is false for a plain
`Uint8Array`, which therefore falls through to `JSON.stringify`: relaying the
bytes `[104, 105]` as a non-Buffer `Uint8Array` publishes the object-form
string, not the decoded string `hi`. -/
theorem c6_bytes_decoded_counterexample :
    sendRequests (relayModel cfgA okB (some 0) (Payload.u8 [104, 105])).events =
      [("topic-a", [jsonStringifyU8 [104, 105]])] ∧
    jsonStringifyU8 [104, 105] ≠ bufToString [104, 105] ∧
    bufToString [104, 105] = "hi" := by
  refine ⟨rfl, ?_, rfl⟩
  decide

/-- Claim C6 (amended): a byte payload is decoded to its string form only when
it is a Node `Buffer`; a plain (non-Buffer) `Uint8Array` is instead serialized
with `JSON.stringify` to its index-keyed object form.  In both cases exactly
one publish request is submitted to `PRODUCER_STREAM`. -/
theorem c6_bytes_decoded_amended (cfg : Configuration) (b : Behavior) (p : Nat)
    (bytes : List Nat) (t s : Option Unit)
    (hbt : b.startTransaction = Except.ok t) (hbs : b.startSpan = Except.ok s)
    (hbl : b.logInfo = Except.ok ()) :
    sendRequests (relayModel cfg b (some p) (Payload.buf bytes)).events =
      [(cfg.PRODUCER_STREAM, [bufToString bytes])] ∧
    sendRequests (relayModel cfg b (some p) (Payload.u8 bytes)).events =
      [(cfg.PRODUCER_STREAM, [jsonStringifyU8 bytes])] := by
  constructor <;>
    (rcases hsd : b.send with m | u <;> cases t <;> cases s <;>
      rcases hse : b.spanEnd with m2 | u2 <;>
      simp [relayModel, hbt, hbs, hbl, hsd, hse, relayAfterSend_events,
        runCatch_events, runFinally_events, sendRequests, normalize,
        List.filterMap_append])

/-- Claim C6 witness: a Buffer holding the bytes of `hi` is published as the
decoded string `hi`, while the same bytes as a plain `Uint8Array` are
published in JSON object form. -/
theorem c6_bytes_decoded_witness :
    sendRequests (relayModel cfgA okB (some 0) (Payload.buf [104, 105])).events =
      [("topic-a", ["hi"])] ∧
    sendRequests (relayModel cfgA okB (some 0) (Payload.u8 [104, 105])).events =
      [("topic-a", [jsonStringifyU8 [104, 105]])] :=
  c6_bytes_decoded_amended cfgA okB 0 [104, 105] (some ()) (some ()) rfl rfl rfl

/-- Claim C7, counterexample: calling `relay` while no producer handle exists
does not throw — but, contrary to the claim, no error is logged either: the
optional-chained `this.producer?.send(...)` is skipped entirely, nothing
fails, and the call completes silently with zero publishes and zero error
logs. -/
theorem c7_not_ready_counterexample :
    (relayModel cfgA okB none (Payload.str "hello")).thrown = none ∧
    countEv isLogError
      (relayModel cfgA okB none (Payload.str "hello")).events = 0 ∧
    sendRequests (relayModel cfgA okB none (Payload.str "hello")).events = [] :=
  ⟨rfl, rfl, rfl⟩

/-- Claim C7 (amended): if `relay(payload)` is called while the instance holds
no producer handle, the send is skipped by optional chaining: no exception is
thrown to the caller and the process does not crash, but no error is logged
and no publish request is submitted. -/
theorem c7_not_ready_amended (cfg : Configuration) (b : Behavior)
    (data : Payload) (t s : Option Unit)
    (hbt : b.startTransaction = Except.ok t) (hbs : b.startSpan = Except.ok s)
    (hbl : b.logInfo = Except.ok ()) (hse : b.spanEnd = Except.ok ())
    (hte : b.txEnd = Except.ok ()) :
    (relayModel cfg b none data).thrown = none ∧
    sendRequests (relayModel cfg b none data).events = [] ∧
    countEv isLogError (relayModel cfg b none data).events = 0 := by
  cases t <;> cases s <;>
    simp [relayModel, hbt, hbs, hbl, relayAfterSend, hse, runFinally, hte,
      sendRequests, countEv, isLogError, List.filterMap_append]

/-- Claim C7 witness: `relay("hello")` on an instance that was never
initialized completes normally with no error log and no publish. -/
theorem c7_not_ready_witness :
    (relayModel cfgA okB none (Payload.str "bye")).thrown = none ∧
    sendRequests (relayModel cfgA okB none (Payload.str "bye")).events = [] ∧
    countEv isLogError (relayModel cfgA okB none (Payload.str "bye")).events = 0 :=
  c7_not_ready_amended cfgA okB (Payload.str "bye") (some ()) (some ())
    rfl rfl rfl rfl rfl

/-- Claim C8: if the `connect()` performed by `init()` rejects, `init()` does
not retry internally (exactly one connect attempt), the failure propagates to
the caller with the same message, and the connection is never established (the
confirmation log `Kafka producer connected` is never reached). -/
theorem c8_init_failure_propagates (cfg : Configuration) (b : InitBehavior)
    (freshId : Nat) (old : Option Nat) (m : String)
    (hlb : b.logBefore = Except.ok ()) (hc : b.connect = Except.error m) :
    (initModel cfg b freshId old).thrown = some m ∧
    countEv isConnect (initModel cfg b freshId old).events = 1 ∧
    Event.logInfo "Kafka producer connected" componentName ∉
      (initModel cfg b freshId old).events := by
  refine ⟨by simp [initModel, hlb, hc], by simp [initModel, hlb, hc, countEv, isConnect], ?_⟩
  simp only [initModel, hlb, hc]
  intro hmem
  simp [List.mem_append, List.mem_singleton] at hmem
  exact initLog_ne_connectedLog (interpOpt cfg.DESTINATION_TRANSPORT_URL) hmem.symm

/-- Claim C8 witness: a connect rejection with `ECONNREFUSED` surfaces to the
caller of `init()` after a single connect attempt. -/
theorem c8_init_failure_propagates_witness :
    (initModel cfgA connectThrowsIB 5 none).thrown = some "ECONNREFUSED" ∧
    countEv isConnect (initModel cfgA connectThrowsIB 5 none).events = 1 ∧
    Event.logInfo "Kafka producer connected" componentName ∉
      (initModel cfgA connectThrowsIB 5 none).events :=
  c8_init_failure_propagates cfgA connectThrowsIB 5 none "ECONNREFUSED" rfl rfl

/-- Claim C9: the development test is exact string equality with the literal
`dev`: the `ssl` option is disabled precisely when the resolved `NODE_ENV`
(configuration value, else process value, else the default `dev`) equals
`dev`; and any configuration whose `NODE_ENV` is set to a different string —
such as `development` or `DEV` — gets the non-development TLS policy. -/
theorem c9_dev_equality_exact (cfg : Configuration) (procNodeEnv : Option String) :
    ((mkKafkaConfig cfg procNodeEnv).ssl = SslOption.disabled ↔
      resolvedNodeEnv cfg procNodeEnv = "dev") ∧
    (∀ v, cfg.NODE_ENV = some v → v ≠ "dev" →
      (mkKafkaConfig cfg procNodeEnv).ssl = SslOption.enabled false (caList cfg)) := by
  constructor
  · by_cases h : resolvedNodeEnv cfg procNodeEnv = "dev" <;>
      simp [mkKafkaConfig, deriveSsl, h]
  · intro v hv hne
    have hres : resolvedNodeEnv cfg procNodeEnv = v := by
      simp [resolvedNodeEnv, hv]
    simp [mkKafkaConfig, deriveSsl, hres, hne]

/-- Claim C9 witness: `NODE_ENV` equal to `development` or to `DEV` (not the
exact literal `dev`) enables TLS with the non-development policy. -/
theorem c9_dev_equality_exact_witness :
    (mkKafkaConfig cfgDevelopment none).ssl =
      SslOption.enabled false ["FAKE_CA"] ∧
    (mkKafkaConfig cfgDEV none).ssl = SslOption.enabled false ["FAKE_CA"] :=
  ⟨(c9_dev_equality_exact cfgDevelopment none).2 "development" rfl (by decide),
    (c9_dev_equality_exact cfgDEV none).2 "DEV" rfl (by decide)⟩

/-- Claim C10: every `init()` call unconditionally assigns a fresh producer
handle, replacing whatever handle the instance held, and attempts exactly one
connect; on an already-initialized instance a second `init()` is neither a
no-op nor an error — with healthy collaborators it completes normally with the
new handle in place. -/
theorem c10_init_reconnects (cfg : Configuration) (b : InitBehavior)
    (freshId : Nat) (old : Option Nat) (hlb : b.logBefore = Except.ok ()) :
    (initModel cfg b freshId old).producer = some freshId ∧
    countEv isConnect (initModel cfg b freshId old).events = 1 ∧
    (b.connect = Except.ok () → b.logAfter = Except.ok () →
      (initModel cfg b freshId old).thrown = none) := by
  rcases hc : b.connect with m | u
  · simp [initModel, hlb, hc, countEv, isConnect]
  · rcases hla : b.logAfter with m2 | u2 <;>
      simp [initModel, hlb, hc, hla, countEv, isConnect]

/-- Claim C10 witness: a second `init()` on a Ready instance (old handle `7`)
replaces it with the fresh handle `8`, attempts one connect, and completes
without error. -/
theorem c10_init_reconnects_witness :
    (initModel cfgA okIB 8 (some 7)).producer = some 8 ∧
    countEv isConnect (initModel cfgA okIB 8 (some 7)).events = 1 ∧
    (initModel cfgA okIB 8 (some 7)).thrown = none := by
  have h := c10_init_reconnects cfgA okIB 8 (some 7) rfl
  exact ⟨h.1, h.2.1, h.2.2 rfl rfl⟩

end KafkaRelay
